import Mathlib

/-!
Shallow embedding of
`src/django_grpc_framework/management/commands/grpcrunserver.py`.

The command is pure configuration plumbing around the external `grpc.aio`
runtime and Django's `autoreload` module, so we embed it as trace-producing
functions: each observable action (library call, stdout/stderr write,
process exit) becomes an `Event`, and each routine of the `Command` class
becomes a Lean function returning the list of events it performs together
with the exception (if any) propagating out of it.  The external
environment's behaviour — whether the port binds, whether the server is
cancelled while waiting, whether a keyboard interrupt arrives — is an
explicit input (`ServeEnv`).
-/

namespace GrpcRunServer

/-- Linux value of `errno.EACCES`, as used by the `ERRORS` dict in
`Command.inner_run`. -/
def EACCES : Nat := 13

/-- Linux value of `errno.EADDRINUSE`. -/
def EADDRINUSE : Nat := 98

/-- Linux value of `errno.EADDRNOTAVAIL`. -/
def EADDRNOTAVAIL : Nat := 99

/-- A Python `OSError`: its `errno` attribute (possibly `None`) and the
string `str(e)` produced by formatting the exception. -/
structure OSErr where
  errno : Option Nat
  str : String
  deriving DecidableEq, Repr

/-- An exception propagating out of a routine of the command.
`asyncio.CancelledError` never escapes `_serve` (it is caught there), so it
needs no constructor here. -/
inductive PyExc where
  | osError (e : OSErr)
  | keyboardInterrupt
  deriving DecidableEq, Repr

/-- The observable actions performed by the command: calls into the
`grpc.aio` / Django libraries, writes, and process exits. -/
inductive Event where
  | createServer (options : List String) (interceptors : List String)
  | rootHandlersHook
  | addInsecurePort (address : String)
  | serverStart
  | waitForTermination
  | serverStop (grace : Option Nat)
  | stdoutWrite (s : String)
  | stderrWrite (s : String)
  | osExit (code : Nat)
  | sysExit (code : Nat)
  | runWithReloader
  | autoreloadMain
  | raiseLastException
  | systemCheck (displayNumErrors : Bool)
  | checkMigrations
  deriving DecidableEq, Repr

/-- `django_grpc_framework.settings.grpc_settings`: the configured server
options and server interceptors.  `ROOT_HANDLERS_HOOK` is an opaque
callback; its invocation is the event `Event.rootHandlersHook`. -/
structure GrpcSettings where
  server_options : List String
  server_interceptors : List String
  deriving DecidableEq, Repr

/-- The attributes `Command.handle` stores on `self` before launching. -/
structure Command where
  address : String
  development_mode : Bool
  max_workers : Int
  deriving DecidableEq, Repr

/-- The parsed `options` dict handed to `Command.handle`. -/
structure Options where
  address : String
  max_workers : Int
  development_mode : Bool
  deriving DecidableEq, Repr

/-- The raw command-line inputs: the optional positional `address`
argument, the optional `--max-workers` integer, and presence of the
`--dev` flag. -/
structure CliArgs where
  address : Option String
  max_workers : Option Int
  dev : Bool
  deriving DecidableEq, Repr

/-- The defaults declared in `Command.add_arguments`: a missing positional
address defaults to `'[::]:50051'`, a missing `--max-workers` to `10`, and
`--dev` is a `store_true` flag, so it is off unless given. -/
def parseArgs (a : CliArgs) : Options :=
  { address := a.address.getD "[::]:50051"
    max_workers := a.max_workers.getD 10
    development_mode := a.dev }

/-- Runtime facts that only feed the strings `inner_run` prints: the
formatted current time, `self.get_version()`, the `repr` of
`settings.SETTINGS_MODULE`, and whether `sys.platform == 'win32'`. -/
structure EnvInfo where
  now : String
  version : String
  settingsRepr : String
  isWin32 : Bool
  deriving DecidableEq, Repr

/-- What the external environment does to one execution of `_serve`:
either an `OSError` is raised while binding/starting the server, or the
server runs until `wait_for_termination` returns, or an
`asyncio.CancelledError` is delivered at the `wait_for_termination` await
point (with `keyboardInterrupt = true` when the cancellation was caused by
a Ctrl-C that `asyncio.run` will re-raise to its caller). -/
inductive ServeEnv where
  | bindError (e : OSErr)
  | terminated
  | cancelled (keyboardInterrupt : Bool)
  deriving DecidableEq, Repr

/-- `Command._serve`, as a coroutine body: build the `grpc.aio` server
with the configured options and interceptors, invoke the root handlers
hook on it, add the insecure port, write the startup line, start, then
await termination; a `CancelledError` raised while waiting is caught,
logged, and answered with `server.stop(grace=None)` without being
re-raised.  An `OSError` from binding propagates.  (The bind failure is
modelled at the port-binding step; for the claims below only the absence
of the later events matters.) -/
def serveCoroutine (cmd : Command) (gs : GrpcSettings) (env : ServeEnv) :
    List Event × Option PyExc :=
  let setup : List Event :=
    [Event.createServer gs.server_options gs.server_interceptors,
     Event.rootHandlersHook,
     Event.addInsecurePort cmd.address]
  match env with
  | ServeEnv.bindError e => (setup, some (PyExc.osError e))
  | ServeEnv.terminated =>
      (setup ++
       [Event.stdoutWrite "gRPC server started and listening.",
        Event.serverStart,
        Event.waitForTermination], none)
  | ServeEnv.cancelled _ =>
      (setup ++
       [Event.stdoutWrite "gRPC server started and listening.",
        Event.serverStart,
        Event.waitForTermination,
        Event.stdoutWrite "Shutting down gRPC server...",
        Event.serverStop none], none)

/-- `asyncio.run(self._serve())` with CPython's documented `asyncio.run`
semantics: a `KeyboardInterrupt` arriving while the loop runs cancels the
main task — delivering `CancelledError` at the `wait_for_termination`
await point, which `_serve` handles — and is then re-raised to the caller
of `asyncio.run`. -/
def asyncioRunServe (cmd : Command) (gs : GrpcSettings) (env : ServeEnv) :
    List Event × Option PyExc :=
  let r := serveCoroutine cmd gs env
  match env with
  | ServeEnv.cancelled true => (r.1, some PyExc.keyboardInterrupt)
  | _ => r

/-- The quit hint chosen from `sys.platform`. -/
def quitCommand (isWin32 : Bool) : String :=
  if isWin32 then "CTRL-BREAK" else "CONTROL-C"

/-- The development banner `inner_run` prints after the checks. -/
def devBanner (cmd : Command) (info : EnvInfo) : String :=
  "Django version " ++ info.version ++ ", using settings " ++
    info.settingsRepr ++ "\n" ++
  "Starting development gRPC server at " ++ cmd.address ++ "\n" ++
  "Quit the server with " ++ quitCommand info.isWin32 ++ ".\n"

/-- Everything `Command.inner_run` does before `asyncio.run(self._serve())`:
re-raise the last reload exception, announce and run the system checks
with error counts displayed, check migrations, and print the timestamp and
the development banner. -/
def innerRunHeader (cmd : Command) (info : EnvInfo) : List Event :=
  [Event.raiseLastException,
   Event.stdoutWrite "Performing system checks...\n\n",
   Event.systemCheck true,
   Event.checkMigrations,
   Event.stdoutWrite info.now,
   Event.stdoutWrite (devBanner cmd info)]

/-- The `ERRORS` dict lookup of `inner_run`:
`ERRORS.get(e.errno, str(e))`. -/
def bindErrorMessage (e : OSErr) : String :=
  match e.errno with
  | some n =>
      if n = EACCES then "You don't have permission to access that port."
      else if n = EADDRINUSE then "That port is already in use."
      else if n = EADDRNOTAVAIL then "That IP address can't be assigned to."
      else e.str
  | none => e.str

/-- `Command.inner_run`: header, then `asyncio.run(self._serve())`; an
escaping `OSError` is mapped through `ERRORS`, written to stderr as
`"Error: ..."`, and answered with `os._exit(1)`; an escaping
`KeyboardInterrupt` is answered with `sys.exit(0)`.  Both exits end the
process, so no exception escapes `inner_run` in those cases. -/
def inner_run (cmd : Command) (gs : GrpcSettings) (info : EnvInfo)
    (env : ServeEnv) : List Event × Option PyExc :=
  let r := asyncioRunServe cmd gs env
  let trace := innerRunHeader cmd info ++ r.1
  match r.2 with
  | some (PyExc.osError e) =>
      (trace ++
       [Event.stderrWrite ("Error: " ++ bindErrorMessage e),
        Event.osExit 1], none)
  | some PyExc.keyboardInterrupt => (trace ++ [Event.sysExit 0], none)
  | none => (trace, none)

/-- Django's `autoreload.run_with_reloader(f, ...)` (external to this
repository): it invokes `f` once per (re)start, restarting whenever
source files change.  `envs` lists the environment of each (re)start. -/
def run_with_reloader (f : ServeEnv → List Event) (envs : List ServeEnv) :
    List Event :=
  envs.flatMap f

/-- `Command.run` as executed under the `asyncio.run` of `handle`: in
development mode it hands `inner_run` to the auto-reloader
(`autoreload.run_with_reloader` when present, else the legacy
`autoreload.main`); otherwise it writes the startup line and awaits
`_serve` directly, so any `OSError` from binding and any
`KeyboardInterrupt` propagate out unhandled. -/
def runCommand (cmd : Command) (gs : GrpcSettings) (info : EnvInfo)
    (hasRunWithReloader : Bool) (restarts : List ServeEnv) (env : ServeEnv) :
    List Event × Option PyExc :=
  if cmd.development_mode then
    if hasRunWithReloader then
      (Event.runWithReloader ::
        run_with_reloader (fun e => (inner_run cmd gs info e).1) restarts,
       none)
    else
      (Event.autoreloadMain ::
        run_with_reloader (fun e => (inner_run cmd gs info e).1) restarts,
       none)
  else
    let r := asyncioRunServe cmd gs env
    (Event.stdoutWrite ("Starting gRPC server at " ++ cmd.address ++ "\n")
       :: r.1, r.2)

/-- `Command.handle`: store the parsed address, development-mode flag and
worker count on `self`, then `asyncio.run(self.run(**options))`.  Returns
the stored state together with the execution's trace and escaping
exception. -/
def handle (opts : Options) (gs : GrpcSettings) (info : EnvInfo)
    (hasRunWithReloader : Bool) (restarts : List ServeEnv) (env : ServeEnv) :
    Command × (List Event × Option PyExc) :=
  let cmd : Command :=
    { address := opts.address
      development_mode := opts.development_mode
      max_workers := opts.max_workers }
  (cmd, runCommand cmd gs info hasRunWithReloader restarts env)

/-! ## Helper lemmas -/

/-- On a bind failure, `inner_run` performs its header, the serve prefix,
then writes the mapped message to stderr and exits the process with
status 1. -/
theorem inner_run_bindError (cmd : Command) (gs : GrpcSettings)
    (info : EnvInfo) (e : OSErr) :
    inner_run cmd gs info (ServeEnv.bindError e) =
      (innerRunHeader cmd info ++
        [Event.createServer gs.server_options gs.server_interceptors,
         Event.rootHandlersHook,
         Event.addInsecurePort cmd.address,
         Event.stderrWrite ("Error: " ++ bindErrorMessage e),
         Event.osExit 1],
       none) := rfl

/-- The `ERRORS` lookup falls through to `str(e)` for any errno outside
the three known codes. -/
theorem bindErrorMessage_unknown (n : Nat) (s : String)
    (h1 : n ≠ EACCES) (h2 : n ≠ EADDRINUSE) (h3 : n ≠ EADDRNOTAVAIL) :
    bindErrorMessage ⟨some n, s⟩ = s := by
  simp [bindErrorMessage, h1, h2, h3]

/-- `runCommand` reads only the `address` and `development_mode`
attributes of the command state, never `max_workers`. -/
theorem runCommand_ignores_max_workers (a : String) (d : Bool) (m1 m2 : Int)
    (gs : GrpcSettings) (info : EnvInfo) (hR : Bool)
    (rs : List ServeEnv) (env : ServeEnv) :
    runCommand ⟨a, d, m1⟩ gs info hR rs env =
      runCommand ⟨a, d, m2⟩ gs info hR rs env := rfl

/-! ## Claims -/

/-- C2: `_serve` performs its steps in exactly this order: construct the
async gRPC server with the configured server options and interceptors,
invoke the root handlers hook, add the insecure port for the configured
address, start the server, then wait for termination; in particular the
handlers hook runs before the port is bound and before serving begins, on
every invocation. -/
theorem serve_performs_steps_in_order (cmd : Command) (gs : GrpcSettings)
    (b : Bool) (env : ServeEnv) :
    (serveCoroutine cmd gs ServeEnv.terminated).1 =
      [Event.createServer gs.server_options gs.server_interceptors,
       Event.rootHandlersHook,
       Event.addInsecurePort cmd.address,
       Event.stdoutWrite "gRPC server started and listening.",
       Event.serverStart,
       Event.waitForTermination] ∧
    (serveCoroutine cmd gs (ServeEnv.cancelled b)).1.take 6 =
      [Event.createServer gs.server_options gs.server_interceptors,
       Event.rootHandlersHook,
       Event.addInsecurePort cmd.address,
       Event.stdoutWrite "gRPC server started and listening.",
       Event.serverStart,
       Event.waitForTermination] ∧
    (serveCoroutine cmd gs env).1.take 3 =
      [Event.createServer gs.server_options gs.server_interceptors,
       Event.rootHandlersHook,
       Event.addInsecurePort cmd.address] := by
  refine ⟨rfl, rfl, ?_⟩
  cases env <;> rfl

/-- C4: when a cancellation is delivered while `_serve` awaits
`wait_for_termination`, it writes "Shutting down gRPC server...", calls
`server.stop(grace=None)` — an immediate, non-graceful shutdown — and
does not re-raise the cancellation out of the coroutine. -/
theorem serve_cancellation_immediate_stop (cmd : Command)
    (gs : GrpcSettings) (b : Bool) :
    (serveCoroutine cmd gs (ServeEnv.cancelled b)).1 =
      [Event.createServer gs.server_options gs.server_interceptors,
       Event.rootHandlersHook,
       Event.addInsecurePort cmd.address,
       Event.stdoutWrite "gRPC server started and listening.",
       Event.serverStart,
       Event.waitForTermination,
       Event.stdoutWrite "Shutting down gRPC server...",
       Event.serverStop none] ∧
    (serveCoroutine cmd gs (ServeEnv.cancelled b)).2 = none :=
  ⟨rfl, rfl⟩

/-- C10: omitting the positional address yields `'[::]:50051'`, omitting
`--max-workers` yields `10`, and development mode is off unless `--dev`
is given. -/
theorem add_arguments_defaults (a : Option String) (w : Option Int)
    (d : Bool) :
    (parseArgs ⟨none, w, d⟩).address = "[::]:50051" ∧
    (parseArgs ⟨a, none, d⟩).max_workers = 10 ∧
    (parseArgs ⟨a, w, false⟩).development_mode = false :=
  ⟨rfl, rfl, rfl⟩

/-- C1 counterexample: with development mode off, a bind failure with
errno EADDRINUSE (98) is not mapped to "That port is already in use.",
nothing is written to stderr, and the process is not exited by the
command: the trace stops at the port-binding step and the `OSError`
propagates out of `run` unhandled.  The error-mapping-and-exit behaviour
therefore does not hold "whether or not development mode is enabled". -/
theorem bind_error_nondev_counterexample :
    (runCommand ⟨"[::]:50051", false, 10⟩ ⟨[], []⟩ ⟨"now", "3.0", "'s'", false⟩
        true [] (ServeEnv.bindError
          ⟨some 98, "[Errno 98] Address already in use"⟩)).1 =
      [Event.stdoutWrite "Starting gRPC server at [::]:50051\n",
       Event.createServer [] [],
       Event.rootHandlersHook,
       Event.addInsecurePort "[::]:50051"] ∧
    (Event.stderrWrite "Error: That port is already in use." ∉
      (runCommand ⟨"[::]:50051", false, 10⟩ ⟨[], []⟩ ⟨"now", "3.0", "'s'", false⟩
        true [] (ServeEnv.bindError
          ⟨some 98, "[Errno 98] Address already in use"⟩)).1) ∧
    (Event.osExit 1 ∉
      (runCommand ⟨"[::]:50051", false, 10⟩ ⟨[], []⟩ ⟨"now", "3.0", "'s'", false⟩
        true [] (ServeEnv.bindError
          ⟨some 98, "[Errno 98] Address already in use"⟩)).1) ∧
    (runCommand ⟨"[::]:50051", false, 10⟩ ⟨[], []⟩ ⟨"now", "3.0", "'s'", false⟩
        true [] (ServeEnv.bindError
          ⟨some 98, "[Errno 98] Address already in use"⟩)).2 =
      some (PyExc.osError ⟨some 98, "[Errno 98] Address already in use"⟩) := by
  refine ⟨rfl, ?_, ?_, rfl⟩ <;> decide

/-- C1 amended: in development mode (`inner_run`), every `OSError`
raised while binding/starting the server whose errno is EACCES,
EADDRINUSE or EADDRNOTAVAIL is mapped to the corresponding
human-readable message, which is written to stderr prefixed by
"Error: ", and the process is then immediately terminated with exit
status 1 — the exit is the last event, so there is no retry. -/
theorem bind_error_dev_known_errno (cmd : Command) (gs : GrpcSettings)
    (info : EnvInfo) (e : OSErr) (msg : String)
    (h : (e.errno = some EACCES ∧
            msg = "You don't have permission to access that port.") ∨
         (e.errno = some EADDRINUSE ∧
            msg = "That port is already in use.") ∨
         (e.errno = some EADDRNOTAVAIL ∧
            msg = "That IP address can't be assigned to.")) :
    (inner_run cmd gs info (ServeEnv.bindError e)).1 =
      innerRunHeader cmd info ++
      [Event.createServer gs.server_options gs.server_interceptors,
       Event.rootHandlersHook,
       Event.addInsecurePort cmd.address,
       Event.stderrWrite ("Error: " ++ msg),
       Event.osExit 1] ∧
    (inner_run cmd gs info (ServeEnv.bindError e)).2 = none := by
  obtain ⟨en, es⟩ := e
  rcases h with ⟨he, hm⟩ | ⟨he, hm⟩ | ⟨he, hm⟩ <;>
    (subst hm; simp only at he; subst he; exact ⟨rfl, rfl⟩)

/-- C1 amended, witness at errno 98 (EADDRINUSE). -/
theorem bind_error_dev_known_errno_witness :
    (inner_run ⟨"[::]:50051", true, 10⟩ ⟨[], []⟩ ⟨"now", "3.0", "'s'", false⟩
        (ServeEnv.bindError ⟨some 98, "boom"⟩)).1 =
      innerRunHeader ⟨"[::]:50051", true, 10⟩ ⟨"now", "3.0", "'s'", false⟩ ++
      [Event.createServer [] [],
       Event.rootHandlersHook,
       Event.addInsecurePort "[::]:50051",
       Event.stderrWrite ("Error: " ++ "That port is already in use."),
       Event.osExit 1] ∧
    (inner_run ⟨"[::]:50051", true, 10⟩ ⟨[], []⟩ ⟨"now", "3.0", "'s'", false⟩
        (ServeEnv.bindError ⟨some 98, "boom"⟩)).2 = none :=
  bind_error_dev_known_errno ⟨"[::]:50051", true, 10⟩ ⟨[], []⟩
    ⟨"now", "3.0", "'s'", false⟩ ⟨some 98, "boom"⟩
    "That port is already in use." (Or.inr (Or.inl ⟨rfl, rfl⟩))

/-- C9: in development mode, an `OSError` whose errno is not one of the
three known codes (including a missing errno) is reported as "Error: "
followed by `str(e)` on stderr, and the process still exits with status
1, exactly as for the known codes. -/
theorem bind_error_dev_unknown_errno (cmd : Command) (gs : GrpcSettings)
    (info : EnvInfo) (e : OSErr)
    (h1 : e.errno ≠ some EACCES) (h2 : e.errno ≠ some EADDRINUSE)
    (h3 : e.errno ≠ some EADDRNOTAVAIL) :
    (inner_run cmd gs info (ServeEnv.bindError e)).1 =
      innerRunHeader cmd info ++
      [Event.createServer gs.server_options gs.server_interceptors,
       Event.rootHandlersHook,
       Event.addInsecurePort cmd.address,
       Event.stderrWrite ("Error: " ++ e.str),
       Event.osExit 1] ∧
    (inner_run cmd gs info (ServeEnv.bindError e)).2 = none := by
  have hm : bindErrorMessage e = e.str := by
    obtain ⟨en, es⟩ := e
    cases en with
    | none => rfl
    | some n =>
        refine bindErrorMessage_unknown n es ?_ ?_ ?_ <;>
          (intro hn; subst hn)
        · exact h1 rfl
        · exact h2 rfl
        · exact h3 rfl
  rw [inner_run_bindError, hm]
  exact ⟨rfl, rfl⟩

/-- C9 witness at errno 22 (EINVAL), an unknown code. -/
theorem bind_error_dev_unknown_errno_witness :
    (inner_run ⟨"[::]:50051", true, 10⟩ ⟨[], []⟩ ⟨"now", "3.0", "'s'", false⟩
        (ServeEnv.bindError ⟨some 22, "[Errno 22] Invalid argument"⟩)).1 =
      innerRunHeader ⟨"[::]:50051", true, 10⟩ ⟨"now", "3.0", "'s'", false⟩ ++
      [Event.createServer [] [],
       Event.rootHandlersHook,
       Event.addInsecurePort "[::]:50051",
       Event.stderrWrite ("Error: " ++ "[Errno 22] Invalid argument"),
       Event.osExit 1] ∧
    (inner_run ⟨"[::]:50051", true, 10⟩ ⟨[], []⟩ ⟨"now", "3.0", "'s'", false⟩
        (ServeEnv.bindError ⟨some 22, "[Errno 22] Invalid argument"⟩)).2 =
      none :=
  bind_error_dev_unknown_errno ⟨"[::]:50051", true, 10⟩ ⟨[], []⟩
    ⟨"now", "3.0", "'s'", false⟩ ⟨some 22, "[Errno 22] Invalid argument"⟩
    (by decide) (by decide) (by decide)

/-- C3: every cancellation delivered while the server is serving leads to
a `server.stop` call: inside `_serve` itself, hence also in a non-dev
`run`; and in development mode a keyboard interrupt (which `asyncio.run`
turns into a cancellation of the serving task before re-raising) also
produces the `server.stop` call right before `inner_run`'s `sys.exit(0)`,
rather than a bare process exit. -/
theorem interrupt_translated_to_server_stop (cmd : Command)
    (gs : GrpcSettings) (info : EnvInfo) (hR : Bool) (rs : List ServeEnv)
    (b : Bool) (h : cmd.development_mode = false) :
    Event.serverStop none ∈ (serveCoroutine cmd gs (ServeEnv.cancelled b)).1 ∧
    Event.serverStop none ∈
      (runCommand cmd gs info hR rs (ServeEnv.cancelled b)).1 ∧
    (inner_run cmd gs info (ServeEnv.cancelled true)).1 =
      innerRunHeader cmd info ++
      [Event.createServer gs.server_options gs.server_interceptors,
       Event.rootHandlersHook,
       Event.addInsecurePort cmd.address,
       Event.stdoutWrite "gRPC server started and listening.",
       Event.serverStart,
       Event.waitForTermination,
       Event.stdoutWrite "Shutting down gRPC server...",
       Event.serverStop none,
       Event.sysExit 0] := by
  refine ⟨?_, ?_, rfl⟩
  · simp [serveCoroutine]
  · cases b <;> simp [runCommand, h, asyncioRunServe, serveCoroutine]

/-- C3 witness: a non-dev command with a Ctrl-C-induced cancellation. -/
theorem interrupt_translated_to_server_stop_witness :
    Event.serverStop none ∈
      (serveCoroutine ⟨"[::]:50051", false, 10⟩ ⟨[], []⟩
        (ServeEnv.cancelled true)).1 ∧
    Event.serverStop none ∈
      (runCommand ⟨"[::]:50051", false, 10⟩ ⟨[], []⟩
        ⟨"now", "3.0", "'s'", false⟩ true [] (ServeEnv.cancelled true)).1 ∧
    (inner_run ⟨"[::]:50051", false, 10⟩ ⟨[], []⟩ ⟨"now", "3.0", "'s'", false⟩
        (ServeEnv.cancelled true)).1 =
      innerRunHeader ⟨"[::]:50051", false, 10⟩ ⟨"now", "3.0", "'s'", false⟩ ++
      [Event.createServer [] [],
       Event.rootHandlersHook,
       Event.addInsecurePort "[::]:50051",
       Event.stdoutWrite "gRPC server started and listening.",
       Event.serverStart,
       Event.waitForTermination,
       Event.stdoutWrite "Shutting down gRPC server...",
       Event.serverStop none,
       Event.sysExit 0] :=
  interrupt_translated_to_server_stop ⟨"[::]:50051", false, 10⟩ ⟨[], []⟩
    ⟨"now", "3.0", "'s'", false⟩ true [] true rfl

/-- C5: in development mode `run` hands `inner_run` to the auto-reloader
(`run_with_reloader` when Django provides it, the legacy
`autoreload.main` otherwise), so the startup sequence is re-run on each
(re)start; and on every (re)start the first six events of `inner_run`
are exactly the re-validation header — re-raise the last reload
exception, run the system checks with error counts displayed, check
migrations, print the timestamp and the banner — all before any serving
event. -/
theorem dev_mode_reload_and_revalidate (cmd : Command) (gs : GrpcSettings)
    (info : EnvInfo) (rs : List ServeEnv) (env : ServeEnv) (e : ServeEnv)
    (h : cmd.development_mode = true) :
    (runCommand cmd gs info true rs env).1 =
      Event.runWithReloader ::
        run_with_reloader (fun x => (inner_run cmd gs info x).1) rs ∧
    (runCommand cmd gs info false rs env).1 =
      Event.autoreloadMain ::
        run_with_reloader (fun x => (inner_run cmd gs info x).1) rs ∧
    (inner_run cmd gs info e).1.take 6 = innerRunHeader cmd info ∧
    (inner_run cmd gs info e).1.take 4 =
      [Event.raiseLastException,
       Event.stdoutWrite "Performing system checks...\n\n",
       Event.systemCheck true,
       Event.checkMigrations] := by
  refine ⟨?_, ?_, ?_, ?_⟩
  · simp [runCommand, h]
  · simp [runCommand, h]
  · cases e with
    | bindError x => rfl
    | terminated => rfl
    | cancelled b => cases b <;> rfl
  · cases e with
    | bindError x => rfl
    | terminated => rfl
    | cancelled b => cases b <;> rfl

/-- C5 witness: a dev-mode command with one restart. -/
theorem dev_mode_reload_and_revalidate_witness :
    (runCommand ⟨"[::]:50051", true, 10⟩ ⟨[], []⟩ ⟨"now", "3.0", "'s'", false⟩
        true [ServeEnv.terminated] ServeEnv.terminated).1 =
      Event.runWithReloader ::
        run_with_reloader
          (fun x => (inner_run ⟨"[::]:50051", true, 10⟩ ⟨[], []⟩
            ⟨"now", "3.0", "'s'", false⟩ x).1) [ServeEnv.terminated] ∧
    (runCommand ⟨"[::]:50051", true, 10⟩ ⟨[], []⟩ ⟨"now", "3.0", "'s'", false⟩
        false [ServeEnv.terminated] ServeEnv.terminated).1 =
      Event.autoreloadMain ::
        run_with_reloader
          (fun x => (inner_run ⟨"[::]:50051", true, 10⟩ ⟨[], []⟩
            ⟨"now", "3.0", "'s'", false⟩ x).1) [ServeEnv.terminated] ∧
    (inner_run ⟨"[::]:50051", true, 10⟩ ⟨[], []⟩ ⟨"now", "3.0", "'s'", false⟩
        ServeEnv.terminated).1.take 6 =
      innerRunHeader ⟨"[::]:50051", true, 10⟩ ⟨"now", "3.0", "'s'", false⟩ ∧
    (inner_run ⟨"[::]:50051", true, 10⟩ ⟨[], []⟩ ⟨"now", "3.0", "'s'", false⟩
        ServeEnv.terminated).1.take 4 =
      [Event.raiseLastException,
       Event.stdoutWrite "Performing system checks...\n\n",
       Event.systemCheck true,
       Event.checkMigrations] :=
  dev_mode_reload_and_revalidate ⟨"[::]:50051", true, 10⟩ ⟨[], []⟩
    ⟨"now", "3.0", "'s'", false⟩ [ServeEnv.terminated] ServeEnv.terminated
    ServeEnv.terminated rfl

/-- C6: with development mode off, `run` writes
"Starting gRPC server at <address>" and awaits `_serve` directly: no
auto-reload wrapping, no system checks, no migration check, no reload
exception re-raise. -/
theorem nondev_direct_serve (cmd : Command) (gs : GrpcSettings)
    (info : EnvInfo) (hR : Bool) (rs : List ServeEnv) (env : ServeEnv)
    (h : cmd.development_mode = false) :
    (runCommand cmd gs info hR rs env).1 =
      Event.stdoutWrite ("Starting gRPC server at " ++ cmd.address ++ "\n")
        :: (asyncioRunServe cmd gs env).1 ∧
    Event.runWithReloader ∉ (runCommand cmd gs info hR rs env).1 ∧
    Event.autoreloadMain ∉ (runCommand cmd gs info hR rs env).1 ∧
    Event.systemCheck true ∉ (runCommand cmd gs info hR rs env).1 ∧
    Event.systemCheck false ∉ (runCommand cmd gs info hR rs env).1 ∧
    Event.checkMigrations ∉ (runCommand cmd gs info hR rs env).1 ∧
    Event.raiseLastException ∉ (runCommand cmd gs info hR rs env).1 := by
  refine ⟨?_, ?_, ?_, ?_, ?_, ?_, ?_⟩ <;>
      rcases env with e | - | b
  all_goals try cases b
  all_goals simp [runCommand, h, asyncioRunServe, serveCoroutine]

/-- C6 witness: a non-dev command serving until termination. -/
theorem nondev_direct_serve_witness :
    (runCommand ⟨"[::]:50051", false, 10⟩ ⟨[], []⟩ ⟨"now", "3.0", "'s'", false⟩
        true [] ServeEnv.terminated).1 =
      Event.stdoutWrite
          ("Starting gRPC server at " ++ "[::]:50051" ++ "\n") ::
        (asyncioRunServe ⟨"[::]:50051", false, 10⟩ ⟨[], []⟩
          ServeEnv.terminated).1 ∧
    Event.runWithReloader ∉
      (runCommand ⟨"[::]:50051", false, 10⟩ ⟨[], []⟩
        ⟨"now", "3.0", "'s'", false⟩ true [] ServeEnv.terminated).1 ∧
    Event.autoreloadMain ∉
      (runCommand ⟨"[::]:50051", false, 10⟩ ⟨[], []⟩
        ⟨"now", "3.0", "'s'", false⟩ true [] ServeEnv.terminated).1 ∧
    Event.systemCheck true ∉
      (runCommand ⟨"[::]:50051", false, 10⟩ ⟨[], []⟩
        ⟨"now", "3.0", "'s'", false⟩ true [] ServeEnv.terminated).1 ∧
    Event.systemCheck false ∉
      (runCommand ⟨"[::]:50051", false, 10⟩ ⟨[], []⟩
        ⟨"now", "3.0", "'s'", false⟩ true [] ServeEnv.terminated).1 ∧
    Event.checkMigrations ∉
      (runCommand ⟨"[::]:50051", false, 10⟩ ⟨[], []⟩
        ⟨"now", "3.0", "'s'", false⟩ true [] ServeEnv.terminated).1 ∧
    Event.raiseLastException ∉
      (runCommand ⟨"[::]:50051", false, 10⟩ ⟨[], []⟩
        ⟨"now", "3.0", "'s'", false⟩ true [] ServeEnv.terminated).1 :=
  nondev_direct_serve ⟨"[::]:50051", false, 10⟩ ⟨[], []⟩
    ⟨"now", "3.0", "'s'", false⟩ true [] ServeEnv.terminated rfl

/-- C7: the command line parses an optional positional address, an
integer `--max-workers` option and a `--dev` flag, and `handle` stores
the parsed address, worker count and development-mode flag on the
command object before launching the server with exactly that stored
state. -/
theorem cli_parse_and_store (a : CliArgs) (gs : GrpcSettings)
    (info : EnvInfo) (hR : Bool) (rs : List ServeEnv) (env : ServeEnv) :
    (handle (parseArgs a) gs info hR rs env).1.address =
      a.address.getD "[::]:50051" ∧
    (handle (parseArgs a) gs info hR rs env).1.max_workers =
      a.max_workers.getD 10 ∧
    (handle (parseArgs a) gs info hR rs env).1.development_mode = a.dev ∧
    (handle (parseArgs a) gs info hR rs env).2 =
      runCommand (handle (parseArgs a) gs info hR rs env).1
        gs info hR rs env :=
  ⟨rfl, rfl, rfl, rfl⟩

/-- C8: two invocations differing only in `--max-workers` produce the
same trace and the same escaping exception — the worker count is stored
on the command object but never reaches the gRPC server constructor or
any other part of the execution. -/
theorem max_workers_noninterference (o1 o2 : Options) (gs : GrpcSettings)
    (info : EnvInfo) (hR : Bool) (rs : List ServeEnv) (env : ServeEnv)
    (h1 : o1.address = o2.address)
    (h2 : o1.development_mode = o2.development_mode) :
    (handle o1 gs info hR rs env).2 = (handle o2 gs info hR rs env).2 ∧
    (handle o1 gs info hR rs env).1.max_workers = o1.max_workers ∧
    (handle o2 gs info hR rs env).1.max_workers = o2.max_workers := by
  obtain ⟨a1, m1, d1⟩ := o1
  obtain ⟨a2, m2, d2⟩ := o2
  simp only at h1 h2
  subst h1; subst h2
  exact ⟨runCommand_ignores_max_workers a1 d1 m1 m2 gs info hR rs env,
    rfl, rfl⟩

/-- C8 witness: worker counts 10 and 99, same address and mode. -/
theorem max_workers_noninterference_witness :
    (handle ⟨"[::]:50051", 10, false⟩ ⟨[], []⟩ ⟨"now", "3.0", "'s'", false⟩
        true [] ServeEnv.terminated).2 =
      (handle ⟨"[::]:50051", 99, false⟩ ⟨[], []⟩ ⟨"now", "3.0", "'s'", false⟩
        true [] ServeEnv.terminated).2 ∧
    (handle ⟨"[::]:50051", 10, false⟩ ⟨[], []⟩ ⟨"now", "3.0", "'s'", false⟩
        true [] ServeEnv.terminated).1.max_workers = 10 ∧
    (handle ⟨"[::]:50051", 99, false⟩ ⟨[], []⟩ ⟨"now", "3.0", "'s'", false⟩
        true [] ServeEnv.terminated).1.max_workers = 99 :=
  max_workers_noninterference ⟨"[::]:50051", 10, false⟩
    ⟨"[::]:50051", 99, false⟩ ⟨[], []⟩ ⟨"now", "3.0", "'s'", false⟩
    true [] ServeEnv.terminated rfl rfl

end GrpcRunServer
